import Mathlib

/-!
Verification development for the `autocoder` repository
(`openvino_inference_server.py`, `hardware_analyzer.py`).

The Python sources are shallowly embedded as executable Lean definitions:
process-global mutable state (`pipeline`, `model_path_g`, `device_g`, the
performance environment variables) becomes an explicit `ServerState` record
threaded through the functions; external effects (the `LLMPipeline`
constructor, `os.path.isdir`, `os.cpu_count`, subprocess execution) become
oracle parameters; Python exceptions that the code catches become `Except` /
`Option` values.  Definitions follow the source line by line; deviations of
the model (e.g. print side effects dropped, JSON bodies restricted to
objects) are noted in the doc comments.
-/

/-! ## Python string primitives used by the sources -/

/-- ASCII whitespace exactly as Python `str.strip` / regex `\s` treat it
(space, tab, newline, carriage return, vertical tab, form feed).  The probe
tool outputs and device strings handled by the repository are ASCII. -/
def isPySpace (c : Char) : Bool :=
  c = ' ' || c = '\t' || c = '\n' || c = '\r' || c = '\x0b' || c = '\x0c'

/-- Python `str.upper` on one ASCII character. -/
def pyUpperChar (c : Char) : Char :=
  if 97 ≤ c.toNat ∧ c.toNat ≤ 122 then Char.ofNat (c.toNat - 32) else c

/-- Python `str.upper` (ASCII). -/
def pyUpper (s : String) : String :=
  String.mk (s.toList.map pyUpperChar)

/-- Python `str.strip()`: drop whitespace from both ends. -/
def pyStrip (s : String) : String :=
  String.mk (((s.toList.dropWhile isPySpace).reverse.dropWhile isPySpace).reverse)

/-- Helper for `pySplitComma`: accumulates the current segment (reversed). -/
def splitCommaAux : List Char → List Char → List (List Char)
  | [], acc => [acc.reverse]
  | c :: cs, acc =>
    if c = ',' then acc.reverse :: splitCommaAux cs []
    else splitCommaAux cs (c :: acc)

/-- Python `s.split(',')`: splits at every comma, keeping empty segments;
`"".split(',') == [""]`, so the result is never the empty list. -/
def pySplitComma (s : String) : List String :=
  (splitCommaAux s.toList []).map (fun cs => String.mk cs)

/-- Python `",".join(xs)`. -/
def joinComma : List String → String
  | [] => ""
  | [s] => s
  | s :: rest => s ++ "," ++ joinComma rest

/-- Python `int(...)` on a non-empty string of decimal digits. -/
def digitsToNat (cs : List Char) : Nat :=
  cs.foldl (fun n c => n * 10 + (c.toNat - 48)) 0

/-! ## `openvino_inference_server.py`: data model

`LLMPipeline(model_path_g, device)` constructs a fresh engine object each
time it is called.  To reason about object identity the model tags every
constructed pipeline with a serial number: the value of the running
construction counter (`ServerState.initCount`) at the moment of the call.
Two pipelines produced by distinct constructor calls therefore compare
unequal, exactly as Python `is`-identity distinguishes them. -/

structure PipelineH where
  modelPath : String
  device : String
  serial : Nat
deriving DecidableEq

/-- The process environment variables mutated by
`set_performance_env_vars`; `none` means "not set". -/
structure EnvVars where
  hetero : Option String
  omp : Option String
  mkl : Option String
  onednn : Option String
  tbb : Option String
deriving DecidableEq

def emptyEnv : EnvVars :=
  { hetero := none, omp := none, mkl := none, onednn := none, tbb := none }

/-- The module-level globals of `openvino_inference_server.py`
(`pipeline`, `model_path_g`, `device_g`) plus the process environment and
the pipeline-construction counter used to model object identity and to
count engine invocations. -/
structure ServerState where
  pipeline : Option PipelineH
  model_path_g : Option String
  device_g : String
  initCount : Nat
  env : EnvVars
deriving DecidableEq

/-- Python `os.cpu_count() or 1`: `or` replaces a falsy value
(`None` or `0`) by `1`. -/
def cpuCountOr1 : Option Nat → Nat
  | none => 1
  | some 0 => 1
  | some (Nat.succ n) => Nat.succ n

/-- `set_performance_env_vars(device_list)` (lines 15-34): sets the HETERO
priority to the comma-joined device list, sets both thread-count variables
to the cpu count when `'CPU' in device_list`, and always sets the oneDNN
ISA hint and the TBB huge-pages hint.  `cpuCount` models `os.cpu_count()`.
The `print` side effects are dropped. -/
def set_performance_env_vars (cpuCount : Option Nat) (device_list : List String)
    (env : EnvVars) : EnvVars :=
  let env1 := { env with hetero := some (joinComma device_list) }
  let env2 :=
    if device_list.contains "CPU" then
      let cores := cpuCountOr1 cpuCount
      { env1 with omp := some (Nat.repr cores), mkl := some (Nat.repr cores) }
    else env1
  { env2 with onednn := some "AVX512_CORE_VNNI", tbb := some "1" }

/-- Python truthiness test `not model_path_g` on the path global:
true for `None` and for the empty string. -/
def pathFalsy : Option String → Bool
  | none => true
  | some s => s == ""

/-- Line 47: `[d.strip().upper() for d in device_g.split(',')]`.
Tokens are trimmed and uppercased; empty tokens and duplicates are kept. -/
def resolveDevices (device_g : String) : List String :=
  (pySplitComma device_g).map (fun d => pyUpper (pyStrip d))

/-- The `for device in devices` loop of lines 52-61.  `engineOk path d`
models whether `LLMPipeline(path, d)` constructs without raising.  `serial`
is the construction counter on entry.  Returns the successfully constructed
pipeline (if any), the list of devices whose construction raised (the
logged warnings, in order), and the number of constructor calls made. -/
def tryDevices (engineOk : String → String → Bool) (path : String) :
    Nat → List String → Option PipelineH × List String × Nat
  | _, [] => (none, [], 0)
  | serial, d :: rest =>
    if engineOk path d then (some ⟨path, d, serial⟩, [], 1)
    else
      let r := tryDevices engineOk path (serial + 1) rest
      (r.1, d :: r.2.1, r.2.2 + 1)

/-- `initialize_pipeline()` (lines 36-64).  Returns the Python boolean
result, the updated globals, and the per-call list of devices whose
construction failed (the `WARN` log lines of line 60).  The path guard of
line 41 (`not model_path_g or not os.path.isdir(model_path_g)`) returns
`False` before the device loop; on first success `device_g` is set to the
winning device and the pipeline global to the fresh pipeline; if every
device fails the pipeline global is set to `None` (line 63). -/
def init_pipeline (engineOk : String → String → Bool) (isdir : String → Bool)
    (cpuCount : Option Nat) (st : ServerState) : Bool × ServerState × List String :=
  if pathFalsy st.model_path_g || !(isdir (st.model_path_g.getD "")) then
    (false, st, [])
  else
    let path := st.model_path_g.getD ""
    let devices := resolveDevices st.device_g
    let env1 := set_performance_env_vars cpuCount devices st.env
    match tryDevices engineOk path st.initCount devices with
    | (some p, fails, _) =>
      (true,
       { st with
         env := env1
         pipeline := some p
         device_g := p.device
         initCount := st.initCount + (fails.length + 1) },
       fails)
    | (none, fails, n) =>
      (false,
       { st with
         env := env1
         pipeline := none
         initCount := st.initCount + n },
       fails)

/-- The globals as they stand when `__main__` (lines 145-153) has stored
the parsed arguments: no pipeline yet, `model_path_g = args.model_path`,
`device_g = args.device`, no constructions yet, environment untouched. -/
def initialState (mp dev : String) : ServerState :=
  { pipeline := none, model_path_g := some mp, device_g := dev,
    initCount := 0, env := emptyEnv }

/-- Outcome of `__main__`: either `sys.exit(1)` (line 159) or the Flask
server serving requests with the post-provisioning globals. -/
inductive StartupResult where
  | exited (code : Nat)
  | serving (st : ServerState) (port : Nat)
deriving DecidableEq

/-- Lines 145-162: parse arguments, run the pipeline setup once, exit with
status 1 on failure, otherwise serve on the given port. -/
def startup (engineOk : String → String → Bool) (isdir : String → Bool)
    (cpuCount : Option Nat) (mp dev : String) (port : Nat) : StartupResult :=
  match init_pipeline engineOk isdir cpuCount (initialState mp dev) with
  | (true, st, _) => StartupResult.serving st port
  | (false, _, _) => StartupResult.exited 1

/-- `n` back-to-back calls of the pipeline setup, each seeing the globals
the previous call left behind (the schedule in which concurrent callers
happen to run serially — an admissible interleaving). -/
def provisionN (engineOk : String → String → Bool) (isdir : String → Bool)
    (cpuCount : Option Nat) : Nat → ServerState → ServerState
  | 0, st => st
  | Nat.succ n, st =>
    provisionN engineOk isdir cpuCount n (init_pipeline engineOk isdir cpuCount st).2.1

/-! ## The `/generate` request handler (lines 115-143)

The call `request.get_json()` at line 124 has two outcomes: on a body that
does not parse as JSON (or a non-JSON content type) Flask *raises*
`BadRequest` — the raise happens inside the `try`, is caught by the
blanket `except Exception` at line 141 and answered 500; on a body that
parses, it returns the parsed value, and the `if not data` check at
line 125 answers 400 when that value is falsy (`None` from the JSON
literal `null`, or an empty object).  `BodyParse` models both outcomes.
Parsed values are restricted to objects over the JSON strings and integers
the handler manipulates.  `dict.get` keeps the last binding of a
duplicated key, as a Python dict built from JSON does. -/

inductive JVal where
  | jstr (s : String)
  | jnum (n : Int)
deriving DecidableEq

abbrev JBody := List (String × JVal)

/-- `data.get(k)` on the dict modelled by `body` (last binding wins). -/
def jget (body : JBody) (k : String) : Option JVal :=
  body.foldl (fun acc kv => if kv.1 == k then some kv.2 else acc) none

/-- Outcome of `request.get_json()` at line 124: `raises` when Flask
raises on an unparseable body (propagating to the `except` at line 141),
`value v` when the body parsed, where `v = none` models the Python value
`None` (JSON `null`) and `v = some kvs` an object. -/
inductive BodyParse where
  | raises (msg : String)
  | value (v : Option JBody)
deriving DecidableEq

/-- Python `not data` on the returned parse value: true for `None` and for
an empty object. -/
def jsonFalsy : Option JBody → Bool
  | none => true
  | some [] => true
  | some (_ :: _) => false

/-- Python `not prompt` on the looked-up value: true for a missing key, the
empty string, and the integer zero. -/
def valFalsy : Option JVal → Bool
  | none => true
  | some (JVal.jstr s) => s == ""
  | some (JVal.jnum n) => n == 0

/-- Observable outcome of one `/generate` call: the HTTP status, the
arguments the pipeline was invoked with (`none` when it was not invoked),
and the generated text of a 200 response. -/
structure GenOutcome where
  status : Nat
  invocation : Option (JVal × JVal)
  generated_text : Option String
deriving DecidableEq

/-- `generate()` (lines 115-143).  `runPipe` models
`pipeline(prompt, max_new_tokens=...)`: `Except.error` when the engine
raises (caught at line 141 and mapped to 500).  Order of events follows
the source: the pipeline global first (500 when `None`); then
`request.get_json()` — a raise there propagates to the `except` at
line 141 and yields 500 with no pipeline invocation; then the body
truthiness (400 at line 126), then `prompt` truthiness (400 at line 133);
`max_new_tokens` defaults to `100` (line 129). -/
def generate (runPipe : JVal → JVal → Except String String)
    (pl : Option PipelineH) (body : BodyParse) : GenOutcome :=
  match pl with
  | none => { status := 500, invocation := none, generated_text := none }
  | some _ =>
    match body with
    | BodyParse.raises _ =>
      { status := 500, invocation := none, generated_text := none }
    | BodyParse.value json =>
      if jsonFalsy json then
        { status := 400, invocation := none, generated_text := none }
      else
        let data := json.getD []
        let prompt := jget data "prompt"
        let max_new := (jget data "max_new_tokens").getD (JVal.jnum 100)
        if valFalsy prompt then
          { status := 400, invocation := none, generated_text := none }
        else
          let pr := prompt.getD (JVal.jnum 0)
          match runPipe pr max_new with
          | Except.ok txt =>
            { status := 200, invocation := some (pr, max_new), generated_text := some txt }
          | Except.error _ =>
            { status := 500, invocation := some (pr, max_new), generated_text := none }

/-! ## `hardware_analyzer.py`: probe execution and text parsing -/

/-- The three ways `subprocess.run` can end inside `run_command`
(lines 134-146): normal completion with captured stdout (`check=False`, so
a non-zero exit still lands here), a `TimeoutExpired`, or any other raised
exception with its message. -/
inductive CmdOutcome where
  | ok (stdout : String)
  | timedOut
  | exn (msg : String)
deriving DecidableEq

/-- `run_command` (lines 134-146): every outcome is converted to a plain
string — no exception escapes. -/
def run_command : CmdOutcome → String
  | CmdOutcome.ok out => out
  | CmdOutcome.timedOut => "Command timed out"
  | CmdOutcome.exn e => "Error: " ++ e

/-- If `label` is a literal prefix of `s`, the remainder of `s` after it. -/
def dropLabel : List Char → List Char → Option (List Char)
  | [], s => some s
  | _ :: _, [] => none
  | l :: ls, c :: cs => if c = l then dropLabel ls cs else none

/-- Backtracking step of `re` for a pattern `label\s+(.+)` whose whitespace
run reaches the end of the input: the largest `k ≥ 1` such that the `k`-th
character after the label (0-based) is not a newline, i.e. the largest
shrink of `\s+` that still lets `.` match. -/
def backK (after : List Char) (r : Nat) : Option Nat :=
  (List.range r).reverse.find?
    (fun k => decide (1 ≤ k) && (after.getD k '\n' != '\n'))

/-- `re.search` semantics of `\s+(.+)` immediately after a matched label:
`\s+` greedily takes the maximal whitespace run; `(.+)` then needs one or
more non-newline characters, backtracking into the run if it reached the
end of the input.  Returns `group(1)`. -/
def matchDotPlus (after : List Char) : Option (List Char) :=
  let r := (after.takeWhile isPySpace).length
  if r = 0 then none
  else if r < after.length then
    some ((after.drop r).takeWhile (fun c => c ≠ '\n'))
  else
    match backK after r with
    | some k => some ((after.drop k).takeWhile (fun c => c ≠ '\n'))
    | none => none

/-- `re.search` semantics of `\s+(\d+)` immediately after a matched label:
since no whitespace character is a digit, backtracking into the run can
never help, so the match succeeds exactly when a digit follows the maximal
whitespace run.  Returns `group(1)`. -/
def matchDigits (after : List Char) : Option (List Char) :=
  let r := (after.takeWhile isPySpace).length
  if r = 0 then none
  else
    match after.drop r with
    | [] => none
    | c :: rest => if c.isDigit then some (c :: rest.takeWhile Char.isDigit) else none

/-- `re.search` over the whole input: try the pattern at every position, in
order; a position matches when the literal label occurs there and the tail
matcher `m` succeeds on the remainder. -/
def searchFrom (label : List Char) (m : List Char → Option (List Char)) :
    List Char → Option (List Char)
  | [] => none
  | c :: cs =>
    match dropLabel label (c :: cs) with
    | some after =>
      match m after with
      | some g => some g
      | none => searchFrom label m cs
    | none => searchFrom label m cs

/-- `re.search(r"Model name:\s+(.+)", s)`, returning `group(1)`. -/
def cpuModelRaw (s : String) : Option (List Char) :=
  searchFrom ("Model name:".toList) matchDotPlus s.toList

/-- `re.search(r"CPU\(s\):\s+(\d+)", s)`, returning `group(1)`. -/
def cpuCoresRaw (s : String) : Option (List Char) :=
  searchFrom ("CPU(s):".toList) matchDigits s.toList

/-- `re.search(r"Mem:\s+(\d+)", s)`, returning `group(1)`. -/
def memTotalRaw (s : String) : Option (List Char) :=
  searchFrom ("Mem:".toList) matchDigits s.toList

/-- The `cpu` entry of the results dict after `analyze_cpu` ran: each field
is present only when its pattern matched (lines 206-211). -/
structure CpuResult where
  model : Option String
  cores : Option Nat
deriving DecidableEq

/-- `analyze_cpu` (lines 206-211) applied to the outcome of
`run_command("lscpu")`: `model` is `group(1).strip()` when the model
pattern matches, `cores` is `int(group(1))` when the count pattern
matches; a non-matching pattern leaves the field absent. -/
def analyze_cpu (o : CmdOutcome) : CpuResult :=
  let cpu_info := run_command o
  { model := (cpuModelRaw cpu_info).map (fun g => pyStrip (String.mk g))
    cores := (cpuCoresRaw cpu_info).map digitsToNat }

/-- `analyze_memory` (lines 224-227) applied to the outcome of
`run_command("free -b")`: `int(group(1)) / (1024**3)` when the pattern
matches (Python float division modelled exactly over `Rat`), absent
otherwise. -/
def analyze_memory (o : CmdOutcome) : Option Rat :=
  (memTotalRaw (run_command o)).map
    (fun g => (digitsToNat g : Rat) / ((1024 : Rat) ^ 3))

/-! ## Helper lemmas -/

theorem tryDevices_first_success (engineOk : String → String → Bool) (path : String) :
    ∀ (ds : List String) (s i : Nat), i < ds.length →
      engineOk path (ds.getD i "") = true →
      (∀ j, j < i → engineOk path (ds.getD j "") = false) →
      tryDevices engineOk path s ds =
        (some ⟨path, ds.getD i "", s + i⟩, ds.take i, i + 1) := by
  intro ds
  induction ds with
  | nil => intro s i hi _ _; simp at hi
  | cons d rest ih =>
    intro s i hi hs hf
    cases i with
    | zero =>
      simp only [List.getD_cons_zero] at hs
      simp [tryDevices, hs]
    | succ i' =>
      have h0 : engineOk path d = false := by
        have := hf 0 (Nat.succ_pos i')
        simpa using this
      have hs' : engineOk path (rest.getD i' "") = true := by
        simpa [List.getD_cons_succ] using hs
      have hf' : ∀ j, j < i' → engineOk path (rest.getD j "") = false := by
        intro j hj
        have := hf (j + 1) (by omega)
        simpa [List.getD_cons_succ] using this
      have hi' : i' < rest.length := by simpa using hi
      simp only [tryDevices, h0, Bool.false_eq_true, if_false]
      rw [ih (s + 1) i' hi' hs' hf']
      simp only [List.getD_cons_succ, List.take_succ_cons]
      have harith : s + 1 + i' = s + (i' + 1) := by omega
      rw [harith]

theorem tryDevices_all_fail (engineOk : String → String → Bool) (path : String) :
    ∀ (ds : List String) (s : Nat), (∀ d ∈ ds, engineOk path d = false) →
      tryDevices engineOk path s ds = (none, ds, ds.length) := by
  intro ds
  induction ds with
  | nil => intro s _; simp [tryDevices]
  | cons d rest ih =>
    intro s hall
    have hd : engineOk path d = false := hall d (List.mem_cons_self d rest)
    have hrest : ∀ x ∈ rest, engineOk path x = false :=
      fun x hx => hall x (List.mem_cons_of_mem d hx)
    simp [tryDevices, hd, ih (s + 1) hrest]

theorem splitCommaAux_ne_nil : ∀ (cs acc : List Char), splitCommaAux cs acc ≠ [] := by
  intro cs
  induction cs with
  | nil => intro acc; simp [splitCommaAux]
  | cons c cs ih =>
    intro acc
    by_cases h : c = ','
    · simp [splitCommaAux, h]
    · simpa [splitCommaAux, h] using ih (c :: acc)

/-- When the path guard passes and the first resolved device constructs
successfully, the pipeline-setup call succeeds with one engine invocation
and no logged failure. -/
theorem init_pipeline_first_success (engineOk : String → String → Bool)
    (isdir : String → Bool) (cpuCount : Option Nat) (st : ServerState)
    (path d0 : String) (ds : List String)
    (hp : st.model_path_g = some path) (hpe : path ≠ "") (hd : isdir path = true)
    (hres : resolveDevices st.device_g = d0 :: ds) (h0 : engineOk path d0 = true) :
    init_pipeline engineOk isdir cpuCount st =
      (true,
       { st with
         env := set_performance_env_vars cpuCount (d0 :: ds) st.env
         pipeline := some ⟨path, d0, st.initCount⟩
         device_g := d0
         initCount := st.initCount + 1 },
       []) := by
  have hguard : (pathFalsy st.model_path_g || !(isdir (st.model_path_g.getD ""))) = false := by
    rw [hp]
    simp [pathFalsy, hpe, hd]
  have htry : tryDevices engineOk path st.initCount (d0 :: ds) =
      (some ⟨path, d0, st.initCount⟩, [], 1) := by
    simp [tryDevices, h0]
  simp only [init_pipeline, hguard, Bool.false_eq_true, if_false, hp, Option.getD_some,
    hres, htry]
  simp [pathFalsy, hpe, hd]

/-- A pipeline-setup call that reports success stored a pipeline. -/
theorem init_pipeline_true_pipeline (engineOk : String → String → Bool)
    (isdir : String → Bool) (cpuCount : Option Nat) (st : ServerState)
    (h : (init_pipeline engineOk isdir cpuCount st).1 = true) :
    ∃ p, (init_pipeline engineOk isdir cpuCount st).2.1.pipeline = some p := by
  by_cases hg : (pathFalsy st.model_path_g || !(isdir (st.model_path_g.getD ""))) = true
  · rw [init_pipeline] at h
    simp [hg] at h
  · rcases htry : tryDevices engineOk (st.model_path_g.getD "") st.initCount
        (resolveDevices st.device_g) with ⟨op, fails, n⟩
    cases op with
    | some p =>
      refine ⟨p, ?_⟩
      rw [init_pipeline]
      simp [hg, htry]
    | none =>
      rw [init_pipeline] at h
      simp [hg, htry] at h

/-! ## Claims -/

/-- C1: for every priority sequence and model path, provisioning attempts
engine construction on each resolved backend name in the given order; the
first backend whose construction succeeds becomes the recorded active
backend (`device_g`) and the stored pipeline's device, and every earlier
failure is logged (returned in the warning list, in order) and non-fatal. -/
theorem c1_sequential_fallback (engineOk : String → String → Bool)
    (isdir : String → Bool) (cpuCount : Option Nat) (st : ServerState)
    (path : String) (i : Nat)
    (hp : st.model_path_g = some path) (hpe : path ≠ "") (hd : isdir path = true)
    (hi : i < (resolveDevices st.device_g).length)
    (hs : engineOk path ((resolveDevices st.device_g).getD i "") = true)
    (hf : ∀ j, j < i → engineOk path ((resolveDevices st.device_g).getD j "") = false) :
    (init_pipeline engineOk isdir cpuCount st).1 = true ∧
    (init_pipeline engineOk isdir cpuCount st).2.1.device_g =
      (resolveDevices st.device_g).getD i "" ∧
    (init_pipeline engineOk isdir cpuCount st).2.1.pipeline =
      some ⟨path, (resolveDevices st.device_g).getD i "", st.initCount + i⟩ ∧
    (init_pipeline engineOk isdir cpuCount st).2.2 =
      (resolveDevices st.device_g).take i := by
  have hguard : (pathFalsy st.model_path_g || !(isdir (st.model_path_g.getD ""))) = false := by
    rw [hp]
    simp [pathFalsy, hpe, hd]
  have htry := tryDevices_first_success engineOk path
    (resolveDevices st.device_g) st.initCount i hi hs hf
  rw [init_pipeline]
  simp only [hp, Option.getD_some] at hguard ⊢
  simp [hguard, htry]

/-- C1 witness: priority `NPU,GPU,CPU` where NPU and GPU construction
fail and CPU succeeds yields a successful call with active backend `CPU`
and exactly the two failures NPU then GPU, in order. -/
theorem c1_sequential_fallback_witness :
    (init_pipeline (fun _ d => d == "CPU") (fun _ => true) none
        (initialState "m" "NPU,GPU,CPU")).1 = true ∧
    (init_pipeline (fun _ d => d == "CPU") (fun _ => true) none
        (initialState "m" "NPU,GPU,CPU")).2.1.device_g = "CPU" ∧
    (init_pipeline (fun _ d => d == "CPU") (fun _ => true) none
        (initialState "m" "NPU,GPU,CPU")).2.1.pipeline = some ⟨"m", "CPU", 2⟩ ∧
    (init_pipeline (fun _ d => d == "CPU") (fun _ => true) none
        (initialState "m" "NPU,GPU,CPU")).2.2 = ["NPU", "GPU"] := by
  obtain ⟨h1, h2, h3, h4⟩ := c1_sequential_fallback (fun _ d => d == "CPU")
    (fun _ => true) none (initialState "m" "NPU,GPU,CPU") "m" 2
    rfl (by decide) rfl (by decide) (by decide) (by decide)
  exact ⟨h1, h2.trans (by decide), h3.trans (by decide), h4.trans (by decide)⟩

/-- C4 counterexample: the backend-priority resolver does not drop empty
tokens and does not deduplicate — on the comma string carrying the tokens
`["npu", " gpu ", "NPU", ""]` it does not return `["NPU", "GPU"]`. -/
theorem c4_counterexample :
    resolveDevices "npu, gpu ,NPU," ≠ ["NPU", "GPU"] := by decide

/-- C4 amended: the resolver trims whitespace and uppercases each
comma-separated token but keeps empty tokens and duplicates, preserving
order: resolving the tokens `["npu", " gpu ", "NPU", ""]` yields
`["NPU", "GPU", "NPU", ""]`. -/
theorem c4_trim_upper_keeps_duplicates :
    resolveDevices "npu, gpu ,NPU," = ["NPU", "GPU", "NPU", ""] := by decide

/-- C5: backend-priority resolution is a total function (no error path
exists in the code, so no `ConfigError` is ever raised) and its result is
never empty — Python `split(',')` returns at least one token and empty
tokens are kept — so "fails iff the normalized sequence is empty" holds
with both sides false, and a non-empty resolved sequence never raises,
independently of any capability discovery. -/
theorem c5_resolution_never_empty (s : String) :
    0 < (resolveDevices s).length := by
  unfold resolveDevices pySplitComma
  rw [List.length_map, List.length_map]
  exact List.length_pos.mpr (splitCommaAux_ne_nil s.toList [])

/-- C5 witness at a concrete configuration string. -/
theorem c5_resolution_never_empty_witness :
    0 < (resolveDevices "NPU,GPU,CPU").length :=
  c5_resolution_never_empty "NPU,GPU,CPU"

/-- C10: when the configured model path is empty (falsy) or not an
existing directory, the pipeline setup returns `False` with no
construction attempt and unchanged globals (so the pipeline stays `None`),
and the process exits with status 1 at startup instead of serving. -/
theorem c10_invalid_path_exits (engineOk : String → String → Bool)
    (isdir : String → Bool) (cpuCount : Option Nat) (mp dev : String) (port : Nat)
    (h : mp = "" ∨ isdir mp = false) :
    init_pipeline engineOk isdir cpuCount (initialState mp dev) =
      (false, initialState mp dev, []) ∧
    (initialState mp dev).pipeline = none ∧
    startup engineOk isdir cpuCount mp dev port = StartupResult.exited 1 := by
  have hguard : (pathFalsy (initialState mp dev).model_path_g ||
      !(isdir ((initialState mp dev).model_path_g.getD ""))) = true := by
    rcases h with h | h
    · subst h
      simp [initialState, pathFalsy]
    · simp [initialState, pathFalsy, h]
  have h1 : init_pipeline engineOk isdir cpuCount (initialState mp dev) =
      (false, initialState mp dev, []) := by
    rw [init_pipeline, hguard]
    simp
  refine ⟨h1, rfl, ?_⟩
  rw [startup, h1]

/-- C10 witness: an empty model path makes the server exit at startup. -/
theorem c10_invalid_path_exits_witness :
    init_pipeline (fun _ _ => true) (fun _ => true) none (initialState "" "NPU,GPU,CPU") =
      (false, initialState "" "NPU,GPU,CPU", []) ∧
    (initialState "" "NPU,GPU,CPU").pipeline = none ∧
    startup (fun _ _ => true) (fun _ => true) none "" "NPU,GPU,CPU" 5001 =
      StartupResult.exited 1 :=
  c10_invalid_path_exits (fun _ _ => true) (fun _ => true) none "" "NPU,GPU,CPU" 5001
    (Or.inl rfl)

/-- C2 counterexample: the code keeps no pipeline cache — a second
sequential call of the pipeline setup for the same model path invokes the
engine constructor again (two constructions in total, not one) and stores
a different pipeline object than the first call did. -/
theorem c2_counterexample :
    (provisionN (fun _ _ => true) (fun _ => true) none 2
        (initialState "m" "CPU")).initCount = 2 ∧
    (provisionN (fun _ _ => true) (fun _ => true) none 2
        (initialState "m" "CPU")).initCount ≠ 1 ∧
    (provisionN (fun _ _ => true) (fun _ => true) none 1
        (initialState "m" "CPU")).pipeline ≠
      (provisionN (fun _ _ => true) (fun _ => true) none 2
        (initialState "m" "CPU")).pipeline := by decide

/-- C2 amended: there is no cache — each call of the pipeline setup
re-invokes the engine constructor and overwrites the pipeline global with a
freshly constructed object, so two sequential calls for the same model path
perform two constructions and yield non-identical pipelines. -/
theorem c2_no_cache (engineOk : String → String → Bool) (isdir : String → Bool)
    (cpuCount : Option Nat) (st : ServerState) (path d0 : String)
    (ds ds2 : List String)
    (hp : st.model_path_g = some path) (hpe : path ≠ "") (hd : isdir path = true)
    (hres : resolveDevices st.device_g = d0 :: ds) (h0 : engineOk path d0 = true)
    (hres2 : resolveDevices d0 = d0 :: ds2) :
    (provisionN engineOk isdir cpuCount 1 st).pipeline =
      some ⟨path, d0, st.initCount⟩ ∧
    (provisionN engineOk isdir cpuCount 2 st).pipeline =
      some ⟨path, d0, st.initCount + 1⟩ ∧
    (provisionN engineOk isdir cpuCount 1 st).pipeline ≠
      (provisionN engineOk isdir cpuCount 2 st).pipeline ∧
    (provisionN engineOk isdir cpuCount 2 st).initCount = st.initCount + 2 := by
  have hcall1 := init_pipeline_first_success engineOk isdir cpuCount st path d0 ds
    hp hpe hd hres h0
  have hcall2 := init_pipeline_first_success engineOk isdir cpuCount
    (init_pipeline engineOk isdir cpuCount st).2.1 path d0 ds2
    (by rw [hcall1]; exact hp) hpe hd (by rw [hcall1]; exact hres2) h0
  rw [hcall1] at hcall2
  have e1 : (provisionN engineOk isdir cpuCount 1 st).pipeline =
      some ⟨path, d0, st.initCount⟩ := by
    simp [provisionN, hcall1]
  have e2 : (provisionN engineOk isdir cpuCount 2 st).pipeline =
      some ⟨path, d0, st.initCount + 1⟩ := by
    simp [provisionN, hcall1, hcall2]
  have e3 : (provisionN engineOk isdir cpuCount 2 st).initCount = st.initCount + 2 := by
    simp [provisionN, hcall1, hcall2]
  refine ⟨e1, e2, ?_, e3⟩
  rw [e1, e2]
  intro hcontra
  simp only [Option.some.injEq, PipelineH.mk.injEq] at hcontra
  omega

/-- C2 witness for the amended claim at a concrete configuration. -/
theorem c2_no_cache_witness :
    (provisionN (fun _ _ => true) (fun _ => true) none 1
        (initialState "m" "CPU")).pipeline = some ⟨"m", "CPU", 0⟩ ∧
    (provisionN (fun _ _ => true) (fun _ => true) none 2
        (initialState "m" "CPU")).pipeline = some ⟨"m", "CPU", 1⟩ ∧
    (provisionN (fun _ _ => true) (fun _ => true) none 1
        (initialState "m" "CPU")).pipeline ≠
      (provisionN (fun _ _ => true) (fun _ => true) none 2
        (initialState "m" "CPU")).pipeline ∧
    (provisionN (fun _ _ => true) (fun _ => true) none 2
        (initialState "m" "CPU")).initCount = 2 :=
  c2_no_cache (fun _ _ => true) (fun _ => true) none (initialState "m" "CPU")
    "m" "CPU" [] [] rfl (by decide) rfl (by decide) rfl (by decide)

/-- C3 counterexample: no mutual-exclusion or single-flight mechanism
exists.  Under the admissible schedule in which two concurrent first-time
callers happen to run serially, the engine constructor is invoked for every
resolved device of each call (here 4 times in total, not once) and the two
callers observe different pipeline objects. -/
theorem c3_counterexample :
    (provisionN (fun _ d => d == "CPU") (fun _ => true) none 2
        (initialState "m" "NPU,GPU,CPU")).initCount = 4 ∧
    (provisionN (fun _ d => d == "CPU") (fun _ => true) none 2
        (initialState "m" "NPU,GPU,CPU")).initCount ≠ 1 ∧
    (provisionN (fun _ d => d == "CPU") (fun _ => true) none 1
        (initialState "m" "NPU,GPU,CPU")).pipeline ≠
      (provisionN (fun _ d => d == "CPU") (fun _ => true) none 2
        (initialState "m" "NPU,GPU,CPU")).pipeline := by decide

/-- C3 amended: the code has no per-key lock or single-flight collapse —
every one of `n` provisioning calls for the same model path performs its
own engine construction, so `n` calls perform exactly `n` constructions
(for a single-device priority that constructs successfully), while the
model path and active device globals are preserved. -/
theorem c3_no_single_flight (engineOk : String → String → Bool)
    (isdir : String → Bool) (cpuCount : Option Nat) (path d0 : String) :
    ∀ (n : Nat) (st : ServerState),
      st.model_path_g = some path → path ≠ "" → isdir path = true →
      st.device_g = d0 → resolveDevices d0 = [d0] → engineOk path d0 = true →
      (provisionN engineOk isdir cpuCount n st).initCount = st.initCount + n ∧
      (provisionN engineOk isdir cpuCount n st).model_path_g = some path ∧
      (provisionN engineOk isdir cpuCount n st).device_g = d0 := by
  intro n
  induction n with
  | zero =>
    intro st hp _ _ hdev _ _
    simp only [provisionN]
    exact ⟨rfl, hp, hdev⟩
  | succ n ih =>
    intro st hp hpe hd hdev hres h0
    have hcall := init_pipeline_first_success engineOk isdir cpuCount st path d0 []
      hp hpe hd (by rw [hdev]; exact hres) h0
    have hstep := ih (init_pipeline engineOk isdir cpuCount st).2.1
      (by rw [hcall]; exact hp) hpe hd (by rw [hcall]) hres h0
    obtain ⟨hc, hm, hdv⟩ := hstep
    have hinit : (init_pipeline engineOk isdir cpuCount st).2.1.initCount =
        st.initCount + 1 := by
      rw [hcall]
    refine ⟨?_, ?_, ?_⟩
    · simp only [provisionN]
      rw [hc, hinit]
      omega
    · simp only [provisionN]
      exact hm
    · simp only [provisionN]
      exact hdv

/-- C3 witness for the amended claim: three serial calls, three engine
constructions. -/
theorem c3_no_single_flight_witness :
    (provisionN (fun _ _ => true) (fun _ => true) none 3
        (initialState "m" "CPU")).initCount = 3 ∧
    (provisionN (fun _ _ => true) (fun _ => true) none 3
        (initialState "m" "CPU")).model_path_g = some "m" ∧
    (provisionN (fun _ _ => true) (fun _ => true) none 3
        (initialState "m" "CPU")).device_g = "CPU" :=
  c3_no_single_flight (fun _ _ => true) (fun _ => true) none "m" "CPU" 3
    (initialState "m" "CPU") rfl (by decide) rfl rfl (by decide) rfl

/-- C6 counterexample: when every backend fails at startup the process does
not keep serving with a 500-class error available to callers — `__main__`
exits with status 1 (line 159), so no subsequent request can retry. -/
theorem c6_counterexample :
    (init_pipeline (fun _ _ => false) (fun _ => true) none
        (initialState "m" "NPU,GPU,CPU")).2.2 = ["NPU", "GPU", "CPU"] ∧
    startup (fun _ _ => false) (fun _ => true) none "m" "NPU,GPU,CPU" 5001 =
      StartupResult.exited 1 := by decide

/-- C6 amended: if every backend in the priority sequence fails to
construct, the pipeline setup returns `False` after logging every attempted
backend in order, leaves the pipeline global `None`, and — provisioning
being performed only at startup — the process exits with status 1 instead
of serving, so the failure is never surfaced as an HTTP 500 and no request
can retry it. -/
theorem c6_exhausted_exits (engineOk : String → String → Bool)
    (isdir : String → Bool) (cpuCount : Option Nat) (mp dev : String) (port : Nat)
    (hpe : mp ≠ "") (hd : isdir mp = true)
    (hall : ∀ d ∈ resolveDevices dev, engineOk mp d = false) :
    (init_pipeline engineOk isdir cpuCount (initialState mp dev)).1 = false ∧
    (init_pipeline engineOk isdir cpuCount (initialState mp dev)).2.1.pipeline = none ∧
    (init_pipeline engineOk isdir cpuCount (initialState mp dev)).2.2 =
      resolveDevices dev ∧
    startup engineOk isdir cpuCount mp dev port = StartupResult.exited 1 := by
  have hguard : (pathFalsy (initialState mp dev).model_path_g ||
      !(isdir ((initialState mp dev).model_path_g.getD ""))) = false := by
    simp [initialState, pathFalsy, hpe, hd]
  have htry := tryDevices_all_fail engineOk mp (resolveDevices dev) 0 hall
  have hcall : init_pipeline engineOk isdir cpuCount (initialState mp dev) =
      (false,
       { initialState mp dev with
         env := set_performance_env_vars cpuCount (resolveDevices dev) emptyEnv
         pipeline := none
         initCount := (resolveDevices dev).length },
       resolveDevices dev) := by
    rw [init_pipeline, hguard]
    simp only [Bool.false_eq_true, if_false, initialState, Option.getD_some, htry,
      Nat.zero_add]
  refine ⟨by rw [hcall], by rw [hcall], by rw [hcall], ?_⟩
  rw [startup, hcall]

/-- C6 witness for the amended claim at a concrete configuration. -/
theorem c6_exhausted_exits_witness :
    (init_pipeline (fun _ _ => false) (fun _ => true) none
        (initialState "m" "NPU,GPU")).1 = false ∧
    (init_pipeline (fun _ _ => false) (fun _ => true) none
        (initialState "m" "NPU,GPU")).2.1.pipeline = none ∧
    (init_pipeline (fun _ _ => false) (fun _ => true) none
        (initialState "m" "NPU,GPU")).2.2 = resolveDevices "NPU,GPU" ∧
    startup (fun _ _ => false) (fun _ => true) none "m" "NPU,GPU" 5001 =
      StartupResult.exited 1 :=
  c6_exhausted_exits (fun _ _ => false) (fun _ => true) none "m" "NPU,GPU" 5001
    (by decide) rfl (by decide)

/-- C7 counterexample: with `max_new_tokens` absent from the request body,
the pipeline is invoked with the default `100` (line 129), not `1024`. -/
theorem c7_counterexample :
    (generate (fun _ _ => Except.ok "txt") (some ⟨"m", "CPU", 0⟩)
        (BodyParse.value (some [("prompt", JVal.jstr "hello")]))).invocation =
      some (JVal.jstr "hello", JVal.jnum 100) ∧
    (generate (fun _ _ => Except.ok "txt") (some ⟨"m", "CPU", 0⟩)
        (BodyParse.value (some [("prompt", JVal.jstr "hello")]))).invocation ≠
      some (JVal.jstr "hello", JVal.jnum 1024) := by decide

/-- C7 amended: when the `max_new_tokens` field is absent from a
`POST /generate` body, generation is invoked with the code's default of
`100` tokens. -/
theorem c7_default_is_100 (runPipe : JVal → JVal → Except String String)
    (p : PipelineH) (body : JBody) (pr : JVal)
    (hne : body ≠ []) (hmt : jget body "max_new_tokens" = none)
    (hpr : jget body "prompt" = some pr) (hfal : valFalsy (some pr) = false) :
    (generate runPipe (some p) (BodyParse.value (some body))).invocation =
      some (pr, JVal.jnum 100) := by
  have hjf : jsonFalsy (some body) = false := by
    cases body with
    | nil => exact absurd rfl hne
    | cons a l => rfl
  cases hrp : runPipe pr (JVal.jnum 100) with
  | ok txt => simp [generate, hjf, hmt, hpr, hfal, hrp]
  | error e => simp [generate, hjf, hmt, hpr, hfal, hrp]

/-- C7 witness for the amended claim at a concrete request body. -/
theorem c7_default_is_100_witness :
    (generate (fun _ _ => Except.error "engine down") (some ⟨"m", "GPU", 0⟩)
        (BodyParse.value (some [("prompt", JVal.jstr "hi")]))).invocation =
      some (JVal.jstr "hi", JVal.jnum 100) :=
  c7_default_is_100 (fun _ _ => Except.error "engine down") ⟨"m", "GPU", 0⟩
    [("prompt", JVal.jstr "hi")] (JVal.jstr "hi")
    (by decide) (by decide) (by decide) (by decide)

/-- C8 counterexample: a request whose body is malformed JSON — so that
`request.get_json()` raises inside the `try` — is answered with status 500
by the blanket `except` at line 141, not with a 400-class error, even with
an initialized pipeline. -/
theorem c8_counterexample :
    (generate (fun _ _ => Except.ok "t") (some ⟨"m", "CPU", 0⟩)
        (BodyParse.raises "400 Bad Request: malformed body")).status = 500 ∧
    (generate (fun _ _ => Except.ok "t") (some ⟨"m", "CPU", 0⟩)
        (BodyParse.raises "400 Bad Request: malformed body")).status ≠ 400 ∧
    (generate (fun _ _ => Except.ok "t") (some ⟨"m", "CPU", 0⟩)
        (BodyParse.raises "400 Bad Request: malformed body")).invocation =
      none := by decide

/-- C8 amended: in any state the server can actually reach while serving
(startup succeeded, so the pipeline global is set), a request whose body
parses to a falsy value (`None`/empty object), or to an object whose
`prompt` is missing or falsy, is answered 400 before the pipeline is
invoked; a request whose body makes `get_json` raise (malformed JSON) is
instead answered 500 via the blanket `except` at line 141, likewise
without invoking the pipeline. -/
theorem c8_input_handling (engineOk : String → String → Bool)
    (isdir : String → Bool) (cpuCount : Option Nat) (mp dev : String)
    (port : Nat) (st : ServerState)
    (runPipe : JVal → JVal → Except String String)
    (msg : String) (v : Option JBody) (kvs : JBody)
    (hserve : startup engineOk isdir cpuCount mp dev port =
      StartupResult.serving st port) :
    ((generate runPipe st.pipeline (BodyParse.raises msg)).status = 500 ∧
     (generate runPipe st.pipeline (BodyParse.raises msg)).invocation = none) ∧
    (jsonFalsy v = true →
      (generate runPipe st.pipeline (BodyParse.value v)).status = 400 ∧
      (generate runPipe st.pipeline (BodyParse.value v)).invocation = none) ∧
    (valFalsy (jget kvs "prompt") = true →
      (generate runPipe st.pipeline (BodyParse.value (some kvs))).status = 400 ∧
      (generate runPipe st.pipeline (BodyParse.value (some kvs))).invocation =
        none) := by
  have hps : ∃ p, st.pipeline = some p := by
    rcases hres : init_pipeline engineOk isdir cpuCount (initialState mp dev)
      with ⟨b, st', fails⟩
    rw [startup, hres] at hserve
    cases b with
    | false => exact absurd hserve (by simp)
    | true =>
      simp only [StartupResult.serving.injEq] at hserve
      obtain ⟨p, hp⟩ := init_pipeline_true_pipeline engineOk isdir cpuCount
        (initialState mp dev) (by rw [hres])
      rw [hres] at hp
      exact ⟨p, by rw [← hserve.1]; exact hp⟩
  obtain ⟨p, hp⟩ := hps
  rw [hp]
  refine ⟨by simp [generate], ?_, ?_⟩
  · intro hv
    simp [generate, hv]
  · intro hk
    by_cases hjf : jsonFalsy (some kvs) = true
    · simp [generate, hjf]
    · simp [generate, hjf, hk]

/-- C8 witness: after the concrete successful startup on device `CPU`, a
raising (malformed) body is answered 500, while an empty object and an
empty prompt are answered 400 — the pipeline is invoked in none of the
three cases. -/
theorem c8_input_handling_witness :
    ((generate (fun _ _ => Except.ok "t")
        (ServerState.pipeline ⟨some ⟨"m", "CPU", 0⟩, some "m", "CPU", 1,
          ⟨some "CPU", some "1", some "1", some "AVX512_CORE_VNNI", some "1"⟩⟩)
        (BodyParse.raises "boom")).status = 500 ∧
     (generate (fun _ _ => Except.ok "t")
        (ServerState.pipeline ⟨some ⟨"m", "CPU", 0⟩, some "m", "CPU", 1,
          ⟨some "CPU", some "1", some "1", some "AVX512_CORE_VNNI", some "1"⟩⟩)
        (BodyParse.raises "boom")).invocation = none) ∧
    ((generate (fun _ _ => Except.ok "t")
        (ServerState.pipeline ⟨some ⟨"m", "CPU", 0⟩, some "m", "CPU", 1,
          ⟨some "CPU", some "1", some "1", some "AVX512_CORE_VNNI", some "1"⟩⟩)
        (BodyParse.value (some []))).status = 400 ∧
     (generate (fun _ _ => Except.ok "t")
        (ServerState.pipeline ⟨some ⟨"m", "CPU", 0⟩, some "m", "CPU", 1,
          ⟨some "CPU", some "1", some "1", some "AVX512_CORE_VNNI", some "1"⟩⟩)
        (BodyParse.value (some []))).invocation = none) ∧
    ((generate (fun _ _ => Except.ok "t")
        (ServerState.pipeline ⟨some ⟨"m", "CPU", 0⟩, some "m", "CPU", 1,
          ⟨some "CPU", some "1", some "1", some "AVX512_CORE_VNNI", some "1"⟩⟩)
        (BodyParse.value (some [("prompt", JVal.jstr "")]))).status = 400 ∧
     (generate (fun _ _ => Except.ok "t")
        (ServerState.pipeline ⟨some ⟨"m", "CPU", 0⟩, some "m", "CPU", 1,
          ⟨some "CPU", some "1", some "1", some "AVX512_CORE_VNNI", some "1"⟩⟩)
        (BodyParse.value
          (some [("prompt", JVal.jstr "")]))).invocation = none) := by
  have h := c8_input_handling (fun _ _ => true) (fun _ => true) none "m" "CPU"
    5001
    ⟨some ⟨"m", "CPU", 0⟩, some "m", "CPU", 1,
      ⟨some "CPU", some "1", some "1", some "AVX512_CORE_VNNI", some "1"⟩⟩
    (fun _ _ => Except.ok "t") "boom" (some []) [("prompt", JVal.jstr "")]
    (by decide)
  exact ⟨h.1, h.2.1 (by decide), h.2.2 (by decide)⟩

/-- C9: the probe layer never lets an exception escape — `run_command`
turns a timeout or any raised exception into a plain string result — and
each parsed field whose pattern does not match in the (arbitrary) tool
output is left absent in the result rather than failing the analysis. -/
theorem c9_parser_tolerant (lscpuO memO : CmdOutcome) (e : String) :
    run_command CmdOutcome.timedOut = "Command timed out" ∧
    run_command (CmdOutcome.exn e) = "Error: " ++ e ∧
    (cpuModelRaw (run_command lscpuO) = none → (analyze_cpu lscpuO).model = none) ∧
    (cpuCoresRaw (run_command lscpuO) = none → (analyze_cpu lscpuO).cores = none) ∧
    (memTotalRaw (run_command memO) = none → analyze_memory memO = none) := by
  refine ⟨rfl, rfl, ?_, ?_, ?_⟩ <;> intro h <;> simp [analyze_cpu, analyze_memory, h]

/-- C9 witness: empty, garbled and timed-out tool outputs all yield absent
fields and no failure. -/
theorem c9_parser_tolerant_witness :
    (analyze_cpu (CmdOutcome.ok "")).model = none ∧
    (analyze_cpu (CmdOutcome.ok "")).cores = none ∧
    analyze_memory CmdOutcome.timedOut = none := by
  have h := c9_parser_tolerant (CmdOutcome.ok "") CmdOutcome.timedOut "boom"
  exact ⟨h.2.2.1 (by decide), h.2.2.2.1 (by decide), h.2.2.2.2 (by decide)⟩
